import Mathlib

set_option maxRecDepth 4000

/-!
Shallow embedding of the intra-day arrival estimation and profile-lookup
engine of the ED prediction backend (src/python-backend/main.py): the
endpoint bodies `predict_remaining` (lines 198-228) and the triage-profile
portion of `get_triage_and_streaming_prediction` (lines 233-265).

Modelling conventions:
- A pandas DataFrame loaded with `index_col='hour'` is a list of column
  labels plus rows keyed by the integer hour index; each row is an
  association list from column label to the cell value, kept in column
  order.  Cell values are rationals (the Python floats hold table
  fractions; the claims are stated at the exact-arithmetic level).
- `df.loc[r, c]` and `df.loc[r]` raise `KeyError` when the key is absent;
  this is the `none` branch of the lookup.
- A raised exception aborts the handler, so a handler either returns the
  full response dict or fails: `Except` with one constructor per distinct
  observable failure of the handler.
- The module-level table globals that are set to `None` when loading fails
  (main.py lines 38-58) are `Option` parameters.
-/

/-- Lookup of a key in an association list, first match wins: the indexed
access of a pandas frame row or index, with `none` for the `KeyError`
case. -/
def assocLookup {α β : Type} [DecidableEq α] (a : α) : List (α × β) → Option β
  | [] => none
  | (k, v) :: rest => if k = a then some v else assocLookup a rest

/-- The cumulative arrival profile, `arrival_profile.csv` loaded with
`index_col='hour'`: the weekday column labels in stored order, and for each
hour a row of (weekday label, cumulative fraction) cells in column order. -/
structure ArrivalProfile where
  columns : List String
  rows : List (Int × List (String × ℚ))
deriving DecidableEq

/-- `arrival_profile_df.loc[hour, day]` (main.py line 218): the cell at the
given hour row and weekday column, `none` when pandas would raise
`KeyError` (row or cell absent). -/
def dfCell (df : ArrivalProfile) (hour : Int) (day : String) : Option ℚ :=
  match assocLookup hour df.rows with
  | none => none
  | some row => assocLookup day row

/-- The triage-by-hour profile, `triage_by_hour_profile.csv` loaded with
`index_col='hour'`: for each hour a row of (category label, weight) cells
in column order. -/
structure TriageProfile where
  rows : List (Int × List (String × ℚ))
deriving DecidableEq

/-- Python `round` on an exact value: round half to even, as
`float.__round__` does (numpy float64 is a float subclass, so `round` on a
cell-derived quotient uses the same rule). -/
def pythonRound (q : ℚ) : ℤ :=
  if q - ⌊q⌋ < 1/2 then ⌊q⌋
  else if 1/2 < q - ⌊q⌋ then ⌊q⌋ + 1
  else if ⌊q⌋ % 2 = 0 then ⌊q⌋ else ⌊q⌋ + 1

/-- main.py line 219: `estimated_total_today = data.arrivals_so_far / percentage_so_far`. -/
def estimated_total_today (arrivals_so_far : ℤ) (percentage_so_far : ℚ) : ℚ :=
  arrivals_so_far / percentage_so_far

/-- main.py line 220: `remaining_arrivals = estimated_total_today - data.arrivals_so_far`. -/
def remaining_arrivals (arrivals_so_far : ℤ) (percentage_so_far : ℚ) : ℚ :=
  estimated_total_today arrivals_so_far percentage_so_far - arrivals_so_far

/-- The distinct observable failures of the `predict_remaining` handler. -/
inductive PredictError
  /-- main.py 204-205: `arrival_profile_df is None` after a failed startup
  load gives HTTP 500, detail "Arrival profile is not loaded.". -/
  | profileUnavailable
  /-- main.py 211: `day_names[day_of_week_num]` raises an uncaught
  `IndexError` when the column list is shorter than the weekday index
  (unreachable for a 7-column table, since `datetime.weekday()` is 0-6). -/
  | dayIndexError
  /-- main.py 214-215: the precondition gate gives HTTP 400, detail
  "Not enough data for today to make a prediction.". -/
  | insufficientData
  /-- main.py 227-228: `except KeyError` around the cell lookup gives HTTP
  400, detail "Could not find profile data for hour {lookup_hour}.". -/
  | profileLookup
  /-- main.py 219 with a zero cell: the float division yields an infinite
  quotient, and `round` of it at line 224 raises an uncaught
  `OverflowError` (a plain-float cell would raise `ZeroDivisionError` at
  line 219 instead).  Neither is a `KeyError`, so the exception escapes the
  handler as a generic internal server error. -/
  | zeroDenominator
deriving DecidableEq

/-- The two fields of the successful `predict_remaining` response
(main.py 222-226), without the echoed `organization_id`. -/
structure PredictOutput where
  estimated_total_for_today : ℤ
  remaining_arrivals_prediction : ℤ
deriving DecidableEq

/-- main.py 198-228, handler of `POST /Organization/{org_id}/$predict-remaining`.
`current_hour` and `day_of_week_num` stand for `now.hour` and
`now.weekday()` read from the wall clock at lines 207-209. -/
def predict_remaining (arrival_profile_df : Option ArrivalProfile)
    (arrivals_so_far : ℤ) (current_hour : ℕ) (day_of_week_num : ℕ) :
    Except PredictError PredictOutput :=
  match arrival_profile_df with
  | none => .error .profileUnavailable
  | some df =>
    match df.columns[day_of_week_num]? with
    | none => .error .dayIndexError
    | some current_day_name =>
      let lookup_hour : ℤ := (current_hour : ℤ) - 1
      if arrivals_so_far ≤ 0 ∨ lookup_hour < 0 then .error .insufficientData
      else
        match dfCell df lookup_hour current_day_name with
        | none => .error .profileLookup
        | some percentage_so_far =>
          if percentage_so_far = 0 then .error .zeroDenominator
          else
            .ok { estimated_total_for_today :=
                    pythonRound (estimated_total_today arrivals_so_far percentage_so_far),
                  remaining_arrivals_prediction :=
                    pythonRound (remaining_arrivals arrivals_so_far percentage_so_far) }

/-- pandas `Series.idxmax` on a row held as an association list in column
order: label of the first occurrence of the maximum value.  The fold keeps
the current best and replaces it only on a strictly larger value. -/
def idxmaxGo (bestLabel : String) (bestVal : ℚ) : List (String × ℚ) → String
  | [] => bestLabel
  | (l, v) :: rest => if bestVal < v then idxmaxGo l v rest else idxmaxGo bestLabel bestVal rest

/-- `probabilities.idxmax()` (main.py line 245); `none` models the
`ValueError` pandas raises on an empty row. -/
def idxmax : List (String × ℚ) → Option String
  | [] => none
  | (l, v) :: rest => some (idxmaxGo l v rest)

/-- Python `str.split` with an explicit separator, over the character list
of the string: the (possibly empty) pieces between occurrences of the
separator.  The result is never the empty list, so negative indexing
`[-1]` on it is total. -/
def splitChars (sep : Char) : List Char → List (List Char)
  | [] => [[]]
  | c :: cs =>
    if c = sep then [] :: splitChars sep cs
    else
      match splitChars sep cs with
      | [] => [[c]]
      | piece :: pieces => (c :: piece) :: pieces

/-- `predicted_triage_level.split('_')[-1]` (main.py line 246): the last
piece of the split (the whole string when no separator occurs). -/
def lastUnderscoreToken (s : String) : String :=
  String.mk ((splitChars '_' s.data).getLastD [])

/-- The distinct observable failures of the triage-profile portion of the
`get_triage_and_streaming_prediction` handler. -/
inductive TriageError
  /-- main.py 239-240: `triage_profile_df is None` after a failed startup
  load gives HTTP 500, detail "A required model/profile is not loaded.". -/
  | profileUnavailable
  /-- main.py 244: `triage_profile_df.loc[data.hour_of_day]` raises
  `KeyError` for an absent hour row; `except Exception` (264-265) surfaces
  it as HTTP 500, detail "Model prediction failed: {e}". -/
  | lookupKeyError
  /-- main.py 245: `idxmax` on an empty row raises `ValueError`, surfaced
  by the same `except Exception` handler. -/
  | emptyRowError
deriving DecidableEq

/-- The two strings the triage-profile portion contributes to the response
(main.py 245-246, 260). -/
structure TriageResult where
  predicted_triage_level : String
  predicted_triage_number : String
deriving DecidableEq

/-- main.py 239-246: the triage-profile lookup inside
`POST /Patient/$assess-risk` (the department-streaming classifier part of
the handler is an external collaborator, out of the modelled core). -/
def lookup_triage (triage_profile_df : Option TriageProfile) (hour_of_day : ℤ) :
    Except TriageError TriageResult :=
  match triage_profile_df with
  | none => .error .profileUnavailable
  | some df =>
    match assocLookup hour_of_day df.rows with
    | none => .error .lookupKeyError
    | some probabilities =>
      match idxmax probabilities with
      | none => .error .emptyRowError
      | some predicted_triage_level =>
        .ok { predicted_triage_level := predicted_triage_level,
              predicted_triage_number := lastUnderscoreToken predicted_triage_level }

/-- The Python `datetime.weekday()` convention: Monday is 0 and Sunday is
6, so a table whose columns are stored Monday through Sunday is the one
whose positional access at `now.weekday()` names the actual weekday. -/
def mondayToSunday : List String :=
  ["Monday", "Tuesday", "Wednesday", "Thursday", "Friday", "Saturday", "Sunday"]

/-- `n` is an integer nearest to `q`. -/
def isNearestInt (n : ℤ) (q : ℚ) : Prop :=
  ∀ m : ℤ, |q - n| ≤ |q - m|

theorem abs_sub_pythonRound_le_half (q : ℚ) : |q - pythonRound q| ≤ 1/2 := by
  have h0 : (⌊q⌋ : ℚ) ≤ q := Int.floor_le q
  have h1 : q < ⌊q⌋ + 1 := Int.lt_floor_add_one q
  unfold pythonRound
  split_ifs with hlt hgt hev <;> push_cast <;> rw [abs_le] <;> constructor <;> linarith

theorem pythonRound_isNearest (q : ℚ) : isNearestInt (pythonRound q) q := by
  intro m
  by_cases hm : m = pythonRound q
  · rw [hm]
  · have hint : (1 : ℤ) ≤ |pythonRound q - m| :=
      Int.one_le_abs (sub_ne_zero.mpr fun h => hm h.symm)
    have hcast : (1 : ℚ) ≤ |(pythonRound q : ℚ) - (m : ℚ)| := by
      calc (1 : ℚ) ≤ ((|pythonRound q - m| : ℤ) : ℚ) := by exact_mod_cast hint
        _ = |(pythonRound q : ℚ) - (m : ℚ)| := by push_cast [Int.cast_abs]; ring_nf
    have htri : |(pythonRound q : ℚ) - (m : ℚ)| ≤ |q - pythonRound q| + |q - m| := by
      calc |(pythonRound q : ℚ) - (m : ℚ)| = |(q - m) - (q - pythonRound q)| := by ring_nf
        _ ≤ |q - m| + |q - pythonRound q| := abs_sub _ _
        _ = |q - pythonRound q| + |q - m| := by ring
    have hhalf := abs_sub_pythonRound_le_half q
    linarith

/-- `pythonRound` is the identity on integers. -/
theorem pythonRound_intCast (n : ℤ) : pythonRound (n : ℚ) = n := by
  unfold pythonRound
  rw [Int.floor_intCast]
  norm_num

/-- The success path of `predict_remaining` (main.py 217-226): with the
table loaded, a weekday column resolved, the precondition gate passed, and
a present, non-zero cell, the handler returns the two rounded estimates. -/
theorem predict_remaining_ok (df : ArrivalProfile) (arrivals_so_far : ℤ)
    (current_hour day_of_week_num : ℕ) (current_day_name : String) (percentage_so_far : ℚ)
    (hday : df.columns[day_of_week_num]? = some current_day_name)
    (harr : 0 < arrivals_so_far) (hhour : 1 ≤ current_hour)
    (hcell : dfCell df ((current_hour : ℤ) - 1) current_day_name = some percentage_so_far)
    (hp : percentage_so_far ≠ 0) :
    predict_remaining (some df) arrivals_so_far current_hour day_of_week_num =
      .ok { estimated_total_for_today :=
              pythonRound (estimated_total_today arrivals_so_far percentage_so_far),
            remaining_arrivals_prediction :=
              pythonRound (remaining_arrivals arrivals_so_far percentage_so_far) } := by
  have hgate : ¬(arrivals_so_far ≤ 0 ∨ (current_hour : ℤ) - 1 < 0) := by
    push_neg
    omega
  simp only [predict_remaining, hday, hcell, if_neg hgate, if_neg hp]

/-- The fold behind `idxmax` returns the label of the first element
attaining the maximum value of the virtual series `(b, v) :: l`: the list
splits as a prefix of strictly smaller values, the winning element, and a
suffix of values at most the winner. -/
theorem idxmaxGo_first_max (l : List (String × ℚ)) :
    ∀ (b : String) (v : ℚ), ∃ pre p post,
      (b, v) :: l = pre ++ p :: post ∧ idxmaxGo b v l = p.1 ∧
      (∀ q ∈ (b, v) :: l, q.2 ≤ p.2) ∧ (∀ q ∈ pre, q.2 < p.2) := by
  induction l with
  | nil =>
    intro b v
    exact ⟨[], (b, v), [], rfl, rfl, by simp, by simp⟩
  | cons aw rest ih =>
    intro b v
    obtain ⟨a, w⟩ := aw
    by_cases hvw : v < w
    · obtain ⟨pre, p, post, heq, hres, hmax, hpre⟩ := ih a w
      have hwp : w ≤ p.2 := hmax (a, w) (by simp)
      refine ⟨(b, v) :: pre, p, post, by simp [heq], by simp [idxmaxGo, if_pos hvw, hres], ?_, ?_⟩
      · intro q hq
        rcases List.mem_cons.mp hq with hq | hq
        · rw [hq]; exact le_of_lt (lt_of_lt_of_le hvw hwp)
        · exact hmax q hq
      · intro q hq
        rcases List.mem_cons.mp hq with hq | hq
        · rw [hq]; exact lt_of_lt_of_le hvw hwp
        · exact hpre q hq
    · obtain ⟨pre, p, post, heq, hres, hmax, hpre⟩ := ih b v
      have hwv : w ≤ v := le_of_not_lt hvw
      cases pre with
      | nil =>
        simp only [List.nil_append] at heq
        obtain ⟨hp1, hp2⟩ := List.cons.inj heq
        refine ⟨[], (b, v), (a, w) :: rest, rfl, ?_, ?_, by simp⟩
        · simp only [idxmaxGo, if_neg hvw, hres, ← hp1]
        · intro q hq
          rcases List.mem_cons.mp hq with hq | hq
          · rw [hq]
          · rcases List.mem_cons.mp hq with hq | hq
            · rw [hq]; exact hwv
            · have hle := hmax q (List.mem_cons_of_mem _ hq)
              rw [← hp1] at hle
              exact hle
      | cons hd tl =>
        rw [List.cons_append] at heq
        obtain ⟨hhd1, hhd2⟩ := List.cons.inj heq
        have hvp : v < p.2 := by
          have hlt := hpre hd (by simp)
          rw [← hhd1] at hlt
          exact hlt
        refine ⟨(b, v) :: (a, w) :: tl, p, post, by simp [hhd2], ?_, ?_, ?_⟩
        · simp only [idxmaxGo, if_neg hvw, hres]
        · intro q hq
          rcases List.mem_cons.mp hq with hq | hq
          · rw [hq]; exact le_of_lt hvp
          · rcases List.mem_cons.mp hq with hq | hq
            · rw [hq]; exact le_of_lt (lt_of_le_of_lt hwv hvp)
            · exact hmax q (List.mem_cons_of_mem _ hq)
        · intro q hq
          rcases List.mem_cons.mp hq with hq | hq
          · rw [hq]; exact hvp
          · rcases List.mem_cons.mp hq with hq | hq
            · rw [hq]; exact lt_of_le_of_lt hwv hvp
            · exact hpre q (List.mem_cons_of_mem _ hq)

/-- The success path of the triage lookup (main.py 244-246): with the
table loaded and a non-empty row present for the hour, the handler reports
the first maximal label of the row and its final-underscore suffix. -/
theorem lookup_triage_ok (df : TriageProfile) (hour_of_day : ℤ) (row : List (String × ℚ))
    (hrow : assocLookup hour_of_day df.rows = some row) (hne : row ≠ []) :
    ∃ pre p post, row = pre ++ p :: post ∧
      lookup_triage (some df) hour_of_day =
        .ok { predicted_triage_level := p.1,
              predicted_triage_number := lastUnderscoreToken p.1 } ∧
      (∀ q ∈ row, q.2 ≤ p.2) ∧ (∀ q ∈ pre, q.2 < p.2) := by
  cases row with
  | nil => exact absurd rfl hne
  | cons bv rest =>
    obtain ⟨b, v⟩ := bv
    obtain ⟨pre, p, post, heq, hres, hmax, hpre⟩ := idxmaxGo_first_max rest b v
    refine ⟨pre, p, post, heq, ?_, hmax, hpre⟩
    simp only [lookup_triage, hrow, idxmax, hres]

/-- A well-formed arrival-profile fragment: columns stored Monday through
Sunday, hour-9 row with the Tuesday cumulative fraction 0.25 (the worked
example of the specification). -/
def tuesdayTable : ArrivalProfile :=
  { columns := mondayToSunday,
    rows := [(9, [("Monday", 3/10), ("Tuesday", 1/4), ("Wednesday", 3/10), ("Thursday", 3/10),
                  ("Friday", 3/10), ("Saturday", 3/10), ("Sunday", 3/10)])] }

/-- A malformed arrival profile whose Tuesday hour-9 cumulative fraction
is the zero cell of the division-by-zero defect case. -/
def zeroCellTable : ArrivalProfile :=
  { columns := mondayToSunday,
    rows := [(9, [("Monday", 3/10), ("Tuesday", 0), ("Wednesday", 3/10), ("Thursday", 3/10),
                  ("Friday", 3/10), ("Saturday", 3/10), ("Sunday", 3/10)])] }

/-- C1: with arrivals_so_far > 0, lookup_hour = current_hour - 1 >= 0, and
a defined non-zero cumulative fraction percentage_so_far at (lookup_hour,
weekday), the estimator returns estimated_total_today = arrivals_so_far /
percentage_so_far and remaining_arrivals = estimated_total_today -
arrivals_so_far, both rounded to a nearest integer for external
reporting. -/
theorem C1_rounded_ratio_estimate (df : ArrivalProfile) (arrivals_so_far : ℤ)
    (current_hour day_of_week_num : ℕ) (current_day_name : String) (percentage_so_far : ℚ)
    (hday : df.columns[day_of_week_num]? = some current_day_name)
    (harr : 0 < arrivals_so_far) (hhour : 1 ≤ current_hour)
    (hcell : dfCell df ((current_hour : ℤ) - 1) current_day_name = some percentage_so_far)
    (hp : percentage_so_far ≠ 0) :
    estimated_total_today arrivals_so_far percentage_so_far =
        arrivals_so_far / percentage_so_far ∧
    remaining_arrivals arrivals_so_far percentage_so_far =
        estimated_total_today arrivals_so_far percentage_so_far - arrivals_so_far ∧
    predict_remaining (some df) arrivals_so_far current_hour day_of_week_num =
      .ok { estimated_total_for_today :=
              pythonRound (estimated_total_today arrivals_so_far percentage_so_far),
            remaining_arrivals_prediction :=
              pythonRound (remaining_arrivals arrivals_so_far percentage_so_far) } ∧
    isNearestInt (pythonRound (estimated_total_today arrivals_so_far percentage_so_far))
      (estimated_total_today arrivals_so_far percentage_so_far) ∧
    isNearestInt (pythonRound (remaining_arrivals arrivals_so_far percentage_so_far))
      (remaining_arrivals arrivals_so_far percentage_so_far) :=
  ⟨rfl, rfl,
   predict_remaining_ok df arrivals_so_far current_hour day_of_week_num
     current_day_name percentage_so_far hday harr hhour hcell hp,
   pythonRound_isNearest _, pythonRound_isNearest _⟩

/-- Witness for C1: the worked example; 50 arrivals at current_hour 10 on
Tuesday with hour-9 cumulative fraction 0.25 give an estimated total of
200 and 150 remaining. -/
theorem C1_rounded_ratio_estimate_witness :
    predict_remaining (some tuesdayTable) 50 10 1 =
      .ok { estimated_total_for_today := 200, remaining_arrivals_prediction := 150 } := by
  have h := (C1_rounded_ratio_estimate tuesdayTable 50 10 1 "Tuesday" (1/4)
    rfl (by norm_num) (by norm_num) rfl (by norm_num)).2.2.1
  rw [h]
  norm_num [estimated_total_today, remaining_arrivals, pythonRound, Int.fract]

/-- C2: with the arrival profile loaded and the weekday index within the
column list (as `datetime.weekday()` always is for a 7-column table), the
estimator fails with the insufficient-data error exactly when
arrivals_so_far <= 0 or lookup_hour = current_hour - 1 < 0 (that is,
current_hour = 0); the table rows are arbitrary, so at current_hour = 0 the
call fails before any cell lookup can matter. -/
theorem C2_insufficient_data_gate (df : ArrivalProfile) (arrivals_so_far : ℤ)
    (current_hour day_of_week_num : ℕ)
    (hday : day_of_week_num < df.columns.length) :
    predict_remaining (some df) arrivals_so_far current_hour day_of_week_num =
        .error .insufficientData ↔
      arrivals_so_far ≤ 0 ∨ current_hour = 0 := by
  have hd : df.columns[day_of_week_num]? = some df.columns[day_of_week_num] :=
    List.getElem?_eq_getElem hday
  simp only [predict_remaining, hd]
  by_cases hgate : arrivals_so_far ≤ 0 ∨ (current_hour : ℤ) - 1 < 0
  · rw [if_pos hgate]
    exact iff_of_true rfl (by omega)
  · rw [if_neg hgate]
    refine iff_of_false ?_ (by omega)
    cases hcell : dfCell df ((current_hour : ℤ) - 1) df.columns[day_of_week_num] with
    | none => simp
    | some p =>
      by_cases hp : p = 0
      · simp [if_pos hp]
      · simp [if_neg hp]

/-- Witness for C2: both gate directions on the example table; a negative
count at hour 12 and the midnight call at hour 0 fail with the
insufficient-data error, while the worked example call does not. -/
theorem C2_insufficient_data_gate_witness :
    predict_remaining (some tuesdayTable) (-5) 12 1 = .error .insufficientData ∧
    predict_remaining (some tuesdayTable) 50 0 1 = .error .insufficientData ∧
    predict_remaining (some tuesdayTable) 50 10 1 ≠ .error .insufficientData := by
  refine ⟨(C2_insufficient_data_gate tuesdayTable (-5) 12 1 (by norm_num [tuesdayTable, mondayToSunday])).mpr
            (Or.inl (by norm_num)),
          (C2_insufficient_data_gate tuesdayTable 50 0 1 (by norm_num [tuesdayTable, mondayToSunday])).mpr
            (Or.inr rfl),
          fun h => ?_⟩
  have := (C2_insufficient_data_gate tuesdayTable 50 10 1 (by norm_num [tuesdayTable, mondayToSunday])).mp h
  omega

/-- C3 (failing direction, division-by-zero defect): at the malformed
table whose looked-up cell is 0, the gate-passing call does not fail with
the handled profile-lookup error; the division produces an infinite float
and the rounding step raises an uncaught overflow, surfacing as a generic
internal server error. -/
theorem C3_zero_cell_escapes_profile_lookup_error :
    predict_remaining (some zeroCellTable) 50 10 1 = .error .zeroDenominator ∧
    predict_remaining (some zeroCellTable) 50 10 1 ≠ .error .profileLookup := by
  have hcell : dfCell zeroCellTable 9 "Tuesday" = some 0 := rfl
  have hday : zeroCellTable.columns[1]? = some "Tuesday" := rfl
  have hres : predict_remaining (some zeroCellTable) 50 10 1 = .error .zeroDenominator := by
    simp only [predict_remaining, hday]
    norm_num
    rw [hcell]
    norm_num
  exact ⟨hres, by rw [hres]; simp⟩

/-- C6: with the arrival profile unloaded (the module global left `None`
by the failed startup load), every call fails fast with the
profile-unavailable error, for the triage table likewise; and no call of
the estimator ever returns a partial result: the outcome is always either
a single error or a response carrying both estimate fields. -/
theorem C6_fail_fast_when_unloaded (arrivals_so_far : ℤ)
    (current_hour day_of_week_num : ℕ) (hour_of_day : ℤ) :
    predict_remaining none arrivals_so_far current_hour day_of_week_num =
        .error .profileUnavailable ∧
    lookup_triage none hour_of_day = .error .profileUnavailable ∧
    ∀ t : Option ArrivalProfile,
      (∃ e, predict_remaining t arrivals_so_far current_hour day_of_week_num = .error e) ∨
      (∃ out, predict_remaining t arrivals_so_far current_hour day_of_week_num = .ok out) := by
  refine ⟨rfl, rfl, fun t => ?_⟩
  cases h : predict_remaining t arrivals_so_far current_hour day_of_week_num with
  | error e => exact Or.inl ⟨e, rfl⟩
  | ok out => exact Or.inr ⟨out, rfl⟩

/-- C5: for arrivals_so_far > 0 and a cell value in (0, 1] at a valid
lookup hour, the unrounded estimated total dominates the observed count
and the unrounded remainder is their difference; the handler reports the
rounded images of exactly these two values. -/
theorem C5_estimate_dominates_observed (df : ArrivalProfile) (arrivals_so_far : ℤ)
    (current_hour day_of_week_num : ℕ) (current_day_name : String) (percentage_so_far : ℚ)
    (hday : df.columns[day_of_week_num]? = some current_day_name)
    (harr : 0 < arrivals_so_far) (hhour : 1 ≤ current_hour)
    (hcell : dfCell df ((current_hour : ℤ) - 1) current_day_name = some percentage_so_far)
    (hp0 : 0 < percentage_so_far) (hp1 : percentage_so_far ≤ 1) :
    (arrivals_so_far : ℚ) ≤ estimated_total_today arrivals_so_far percentage_so_far ∧
    remaining_arrivals arrivals_so_far percentage_so_far =
      estimated_total_today arrivals_so_far percentage_so_far - arrivals_so_far ∧
    predict_remaining (some df) arrivals_so_far current_hour day_of_week_num =
      .ok { estimated_total_for_today :=
              pythonRound (estimated_total_today arrivals_so_far percentage_so_far),
            remaining_arrivals_prediction :=
              pythonRound (remaining_arrivals arrivals_so_far percentage_so_far) } := by
  refine ⟨?_, rfl,
    predict_remaining_ok df arrivals_so_far current_hour day_of_week_num
      current_day_name percentage_so_far hday harr hhour hcell (ne_of_gt hp0)⟩
  rw [estimated_total_today, le_div_iff₀ hp0]
  calc (arrivals_so_far : ℚ) * percentage_so_far ≤ arrivals_so_far * 1 :=
        mul_le_mul_of_nonneg_left hp1 (by exact_mod_cast le_of_lt harr)
    _ = arrivals_so_far := mul_one _

/-- Witness for C5: 10 arrivals at hour 10 against the Tuesday fraction
0.25 give an estimate of 40, at least the observed 10, with 30 left. -/
theorem C5_estimate_dominates_observed_witness :
    ((10 : ℤ) : ℚ) ≤ estimated_total_today 10 (1/4) ∧
    predict_remaining (some tuesdayTable) 10 10 1 =
      .ok { estimated_total_for_today := 40, remaining_arrivals_prediction := 30 } := by
  have h := C5_estimate_dominates_observed tuesdayTable 10 10 1 "Tuesday" (1/4)
    rfl (by norm_num) (by norm_num) rfl (by norm_num) (by norm_num)
  refine ⟨h.1, ?_⟩
  rw [h.2.2]
  norm_num [estimated_total_today, remaining_arrivals, pythonRound, Int.fract]

/-- C10: the estimator selects the weekday column positionally: the cell
it consults under the gate conditions is the one keyed by the label at
index `now.weekday()` of the stored column list, whatever that label is;
when the columns are stored Monday through Sunday, that label is the
actual weekday's name (Monday = 0, ..., Sunday = 6). -/
theorem C10_positional_weekday_selection (df : ArrivalProfile) (arrivals_so_far : ℤ)
    (current_hour day_of_week_num : ℕ) (current_day_name : String) (percentage_so_far : ℚ)
    (hday : df.columns[day_of_week_num]? = some current_day_name)
    (harr : 0 < arrivals_so_far) (hhour : 1 ≤ current_hour)
    (hcell : dfCell df ((current_hour : ℤ) - 1) current_day_name = some percentage_so_far)
    (hp : percentage_so_far ≠ 0) :
    predict_remaining (some df) arrivals_so_far current_hour day_of_week_num =
      .ok { estimated_total_for_today :=
              pythonRound (estimated_total_today arrivals_so_far percentage_so_far),
            remaining_arrivals_prediction :=
              pythonRound (remaining_arrivals arrivals_so_far percentage_so_far) } ∧
    (df.columns = mondayToSunday →
      mondayToSunday[day_of_week_num]? = some current_day_name) :=
  ⟨predict_remaining_ok df arrivals_so_far current_hour day_of_week_num
     current_day_name percentage_so_far hday harr hhour hcell hp,
   fun hc => hc ▸ hday⟩

/-- An arrival profile whose columns are NOT stored Monday-first: Tuesday
sits at position 0 with fraction 0.25 and Monday at position 1 with
fraction 0.5. -/
def permutedTable : ArrivalProfile :=
  { columns := ["Tuesday", "Monday", "Wednesday", "Thursday", "Friday", "Saturday", "Sunday"],
    rows := [(9, [("Tuesday", 1/4), ("Monday", 1/2), ("Wednesday", 3/10), ("Thursday", 3/10),
                  ("Friday", 3/10), ("Saturday", 3/10), ("Sunday", 3/10)])] }

/-- Witness for C10: on the permuted table a Monday call (weekday index 0)
reads the cell under the label at position 0, which is the Tuesday column
with 0.25, giving 200 rather than the 100 the Monday-named cell 0.5 would
give; the second conjunct records what the Monday-named cell holds. -/
theorem C10_positional_weekday_selection_witness :
    predict_remaining (some permutedTable) 50 10 0 =
      .ok { estimated_total_for_today := 200, remaining_arrivals_prediction := 150 } ∧
    dfCell permutedTable 9 "Monday" = some (1/2) := by
  have h := (C10_positional_weekday_selection permutedTable 50 10 0 "Tuesday" (1/4)
    rfl (by norm_num) (by norm_num) rfl (by norm_num)).1
  refine ⟨?_, rfl⟩
  rw [h]
  norm_num [estimated_total_today, remaining_arrivals, pythonRound, Int.fract]

/-- The triage profile of the worked example: hour 14 with weights
cat_1 = 0.1, cat_2 = 0.6, cat_3 = 0.3. -/
def triage14Table : TriageProfile :=
  { rows := [(14, [("cat_1", 1/10), ("cat_2", 6/10), ("cat_3", 3/10)])] }

/-- C4: for every triage lookup whose hour row is present (and non-empty,
as a loaded csv row always is), the reply carries a winning label whose
value is maximal in the row, and the reported category is the suffix of
that label after the final underscore. -/
theorem C4_argmax_and_suffix (df : TriageProfile) (hour_of_day : ℤ) (row : List (String × ℚ))
    (hrow : assocLookup hour_of_day df.rows = some row) (hne : row ≠ []) :
    ∃ res : TriageResult,
      lookup_triage (some df) hour_of_day = .ok res ∧
      (∃ v : ℚ, (res.predicted_triage_level, v) ∈ row ∧ ∀ q ∈ row, q.2 ≤ v) ∧
      res.predicted_triage_number = lastUnderscoreToken res.predicted_triage_level := by
  obtain ⟨pre, p, post, heq, hok, hmax, hpre⟩ := lookup_triage_ok df hour_of_day row hrow hne
  refine ⟨{ predicted_triage_level := p.1, predicted_triage_number := lastUnderscoreToken p.1 },
    hok, ⟨p.2, ?_, hmax⟩, rfl⟩
  rw [heq]
  simp

/-- Witness for C4: the hour-14 worked example row; the theorem applies,
and concretely the winner is cat_2, reported as "2". -/
theorem C4_argmax_and_suffix_witness :
    (∃ res : TriageResult,
      lookup_triage (some triage14Table) 14 = .ok res ∧
      (∃ v : ℚ, (res.predicted_triage_level, v) ∈
          [("cat_1", (1:ℚ)/10), ("cat_2", 6/10), ("cat_3", 3/10)] ∧
        ∀ q ∈ [("cat_1", (1:ℚ)/10), ("cat_2", 6/10), ("cat_3", 3/10)], q.2 ≤ v) ∧
      res.predicted_triage_number = lastUnderscoreToken res.predicted_triage_level) ∧
    lookup_triage (some triage14Table) 14 =
      .ok { predicted_triage_level := "cat_2", predicted_triage_number := "2" } := by
  refine ⟨C4_argmax_and_suffix triage14Table 14
    [("cat_1", (1:ℚ)/10), ("cat_2", 6/10), ("cat_3", 3/10)] rfl (List.cons_ne_nil _ _), ?_⟩
  norm_num [lookup_triage, triage14Table, assocLookup, idxmax, idxmaxGo]
  decide

/-- A triage profile with one row per hour 0 through 23, mirroring the
table invariant; hours outside 0-23 have no row. -/
def fullTriageTable : TriageProfile :=
  { rows := (List.range 24).map (fun h => ((h : ℤ), [("category_1", (1:ℚ)), ("category_2", 1/2)])) }

/-- C7: for every hour of day whose row is absent from the loaded triage
profile (in particular every hour outside 0-23 against a table holding
exactly those hours), the lookup fails with the row-lookup error (the
`KeyError` surfaced as a server error) rather than returning a
category. -/
theorem C7_absent_row_fails (df : TriageProfile) (hour_of_day : ℤ)
    (habsent : assocLookup hour_of_day df.rows = none) :
    lookup_triage (some df) hour_of_day = .error .lookupKeyError := by
  simp only [lookup_triage, habsent]

/-- Witness for C7: on a table with rows exactly for hours 0-23, the
out-of-range hours 24 and -1 fail with the row-lookup error. -/
theorem C7_absent_row_fails_witness :
    lookup_triage (some fullTriageTable) 24 = .error .lookupKeyError ∧
    lookup_triage (some fullTriageTable) (-1) = .error .lookupKeyError :=
  ⟨C7_absent_row_fails fullTriageTable 24 rfl,
   C7_absent_row_fails fullTriageTable (-1) rfl⟩

/-- A triage profile whose winning label "urgent" does not follow the
"category_<N>" (or "cat_<N>") naming convention. -/
def urgentTriageTable : TriageProfile :=
  { rows := [(14, [("urgent", 1)])] }

/-- C8 counterexample: a winning label with no parsable numeric suffix
does not make the lookup fail; the handler succeeds and reports the raw
string-derived value (here the whole label, since it holds no
underscore).  No label-format failure exists in the handler. -/
theorem C8_counterexample_no_label_format_failure :
    lookup_triage (some urgentTriageTable) 14 =
      .ok { predicted_triage_level := "urgent", predicted_triage_number := "urgent" } ∧
    ∀ e : TriageError, lookup_triage (some urgentTriageTable) 14 ≠ .error e := by
  have h : lookup_triage (some urgentTriageTable) 14 =
      .ok { predicted_triage_level := "urgent", predicted_triage_number := "urgent" } := rfl
  exact ⟨h, fun e he => by rw [h] at he; exact absurd he (by simp)⟩

/-- C8 amended: every lookup on a present non-empty row succeeds, and the
reported category is always the substring of the winning label after its
final underscore (the whole label when it has none), taken without any
format validation. -/
theorem C8_amended_unchecked_suffix (df : TriageProfile) (hour_of_day : ℤ)
    (row : List (String × ℚ))
    (hrow : assocLookup hour_of_day df.rows = some row) (hne : row ≠ []) :
    ∃ res : TriageResult, lookup_triage (some df) hour_of_day = .ok res ∧
      res.predicted_triage_number = lastUnderscoreToken res.predicted_triage_level := by
  obtain ⟨pre, p, post, heq, hok, hmax, hpre⟩ := lookup_triage_ok df hour_of_day row hrow hne
  exact ⟨_, hok, rfl⟩

/-- Witness for C8 (amended): the nonconforming winning label "urgent" is
reported unchecked. -/
theorem C8_amended_unchecked_suffix_witness :
    ∃ res : TriageResult, lookup_triage (some urgentTriageTable) 14 = .ok res ∧
      res.predicted_triage_number = lastUnderscoreToken res.predicted_triage_level :=
  C8_amended_unchecked_suffix urgentTriageTable 14 [("urgent", 1)] rfl (List.cons_ne_nil _ _)

/-- C9: on a fixed loaded table the lookup is one determined category per
hour; when several categories tie for the maximum, the returned label is
the first of them in the column order of the stored row: the row splits
into a strict-smaller prefix, the winner, and a no-larger suffix. -/
theorem C9_first_of_ties_in_column_order (df : TriageProfile) (hour_of_day : ℤ)
    (row : List (String × ℚ))
    (hrow : assocLookup hour_of_day df.rows = some row) (hne : row ≠ []) :
    ∃ (res : TriageResult) (pre p post : _),
      lookup_triage (some df) hour_of_day = .ok res ∧
      row = pre ++ p :: post ∧
      res.predicted_triage_level = p.1 ∧
      (∀ q ∈ row, q.2 ≤ p.2) ∧
      (∀ q ∈ pre, q.2 < p.2) := by
  obtain ⟨pre, p, post, heq, hok, hmax, hpre⟩ := lookup_triage_ok df hour_of_day row hrow hne
  exact ⟨_, pre, p, post, hok, heq, rfl, hmax, hpre⟩

/-- A triage row with cat_3 and cat_1 tied for the maximum, cat_3 first
in column order. -/
def tieTriageTable : TriageProfile :=
  { rows := [(7, [("cat_3", 2/5), ("cat_1", 2/5), ("cat_2", 1/5)])] }

/-- Witness for C9: on the tied row the theorem applies, and concretely
the winner is cat_3, the first of the two tied categories in column
order. -/
theorem C9_first_of_ties_in_column_order_witness :
    (∃ (res : TriageResult) (pre p post : _),
      lookup_triage (some tieTriageTable) 7 = .ok res ∧
      [("cat_3", (2:ℚ)/5), ("cat_1", 2/5), ("cat_2", 1/5)] = pre ++ p :: post ∧
      res.predicted_triage_level = p.1 ∧
      (∀ q ∈ [("cat_3", (2:ℚ)/5), ("cat_1", 2/5), ("cat_2", 1/5)], q.2 ≤ p.2) ∧
      (∀ q ∈ pre, q.2 < p.2)) ∧
    lookup_triage (some tieTriageTable) 7 =
      .ok { predicted_triage_level := "cat_3", predicted_triage_number := "3" } := by
  refine ⟨C9_first_of_ties_in_column_order tieTriageTable 7
    [("cat_3", (2:ℚ)/5), ("cat_1", 2/5), ("cat_2", 1/5)] rfl (List.cons_ne_nil _ _), ?_⟩
  norm_num [lookup_triage, tieTriageTable, assocLookup, idxmax, idxmaxGo]
  decide
